import Mathlib

/-!
# Verification of the gear_gen move algebra and circle-trimming engine

Shallow embedding of `src/lib/lib.rs` (move descriptors, `g0`/`g1` emission,
`trimmed_g1_path`) and `src/lib/geometry/mod.rs` (`LineSegment`, `Circle`,
`trim`).  Rust `f64` values are modelled as real numbers; a Rust
`assert!`/`panic!`/`unwrap`-on-`None` abort is modelled as `Except.error`;
writing a move to the output file is modelled by returning the emitted move,
and a whole path walk returns the list of emitted moves in order.
-/

namespace GearGen

/-- A Rust panic: a failed `assert!` (with its message), `Option::unwrap` on
`None`, or the unsigned underflow of `path.len() - 1` on an empty slice. -/
inductive PanicErr where
  | assertFail (msg : String)
  | unwrapNone
  | usizeUnderflow
deriving DecidableEq

/-- Model of `nalgebra::geometry::Point2<f64>`, with coordinates as reals. -/
structure Point2 where
  x : ℝ
  y : ℝ

/-- The difference of two points (nalgebra's 2-D vector). -/
structure Vec2 where
  x : ℝ
  y : ℝ

/-- Difference `p - q` on points, yielding a vector. -/
noncomputable def psub (p q : Point2) : Vec2 := ⟨p.x - q.x, p.y - q.y⟩

/-- nalgebra `dot`. -/
noncomputable def Vec2.dot (u v : Vec2) : ℝ := u.x * v.x + u.y * v.y

/-- nalgebra `norm_squared`. -/
noncomputable def Vec2.norm_squared (v : Vec2) : ℝ := v.x * v.x + v.y * v.y

/-- The point `p + t * d`, the segment parametrization used in `trim`. -/
noncomputable def Point2.addScaled (p : Point2) (t : ℝ) (d : Vec2) : Point2 :=
  ⟨p.x + t * d.x, p.y + t * d.y⟩

/-- Rust `struct PosAndFeed` from `lib.rs`: a sparse move descriptor. -/
structure PosAndFeed where
  x : Option ℝ
  y : Option ℝ
  z : Option ℝ
  a : Option ℝ
  feed : Option ℝ

/-- Builder `xy` from `lib.rs`. -/
def xy (x y : ℝ) : PosAndFeed := ⟨some x, some y, none, none, none⟩

/-- Builder `xyf` from `lib.rs`. -/
def xyf (x y feed : ℝ) : PosAndFeed := ⟨some x, some y, none, none, some feed⟩

/-- Builder `z` from `lib.rs`. -/
def z (z : ℝ) : PosAndFeed := ⟨none, none, some z, none, none⟩

/-- Builder `zf` from `lib.rs`. -/
def zf (z feed : ℝ) : PosAndFeed := ⟨none, none, some z, none, some feed⟩

/-- Rust `struct PosRadiusAndFeed` from `lib.rs`. -/
structure PosRadiusAndFeed where
  x : Option ℝ
  y : Option ℝ
  r : Option ℝ
  feed : Option ℝ
  z : Option ℝ

/-- Builder `xyr` from `lib.rs`. -/
def xyr (x y r : ℝ) : PosRadiusAndFeed := ⟨some x, some y, some r, none, none⟩

/-- Rust `f64::EPSILON` = 2⁻⁵². -/
noncomputable def f64Epsilon : ℝ := 1 / 2 ^ 52

/-- Rust `f64::round`: round half away from zero.  (Mathlib's `round` rounds
half up; the two agree away from negative half-integers, and `rustRound` is
defined by reflecting through zero exactly as the Rust semantics demand.) -/
noncomputable def rustRound (v : ℝ) : ℤ := if 0 ≤ v then round v else -round (-v)

/-- The two rendering forms of `g_val`: `integral n` stands for the text
`"<n>."` (rounded integer, trailing decimal point, no fractional digits);
`fixed4 v` stands for `v` printed with exactly 4 fractional digits
(Rust `{v:.4}`). -/
inductive GForm where
  | integral (n : ℤ)
  | fixed4 (v : ℝ)

/-- One emitted `<letter><number>` token. -/
structure GVal where
  name : String
  form : GForm

/-- Function `g_val` from `lib.rs`: emit a letter+number token if the value is present;
values within `f64::EPSILON` of their rounding are printed in integral form. -/
noncomputable def g_val (name : String) (ov : Option ℝ) : List GVal :=
  match ov with
  | none => []
  | some v =>
      if |v - (rustRound v : ℝ)| < f64Epsilon then [⟨name, .integral (rustRound v)⟩]
      else [⟨name, .fixed4 v⟩]

/-- One emitted move line: the command word (`"G0"`/`"G1"`) and its tokens. -/
structure Move where
  cmd : String
  vals : List GVal

/-- Method `PosAndFeed::as_gvals`: panics if no axis value at all is present,
otherwise emits the axis tokens in the fixed order X, Y, Z, A, F. -/
noncomputable def PosAndFeed.as_gvals (p : PosAndFeed) : Except PanicErr (List GVal) :=
  if p.x.isNone && p.y.isNone && p.z.isNone && p.a.isNone then
    .error (.assertFail "Refusing to make illegal move")
  else
    .ok (g_val "X" p.x ++ g_val "Y" p.y ++ g_val "Z" p.z ++ g_val "A" p.a ++ g_val "F" p.feed)

/-- Function `g_move_linear` from `lib.rs`. -/
noncomputable def g_move_linear (g : String) (p : PosAndFeed) : Except PanicErr Move := do
  let vals ← p.as_gvals
  pure ⟨g, vals⟩

/-- Function `g0` from `lib.rs`: rapid move.  Asserts that no feed rate is present and
that a present vertical value is strictly positive. -/
noncomputable def g0 (p : PosAndFeed) : Except PanicErr Move :=
  if p.feed.isSome then .error (.assertFail "g0 moves must not include a feed rate")
  else
    match p.z with
    | some zv =>
        if zv > 0 then g_move_linear "G0" p
        else .error (.assertFail "Rapid move at negative z")
    | none => g_move_linear "G0" p

/-- Function `g1` from `lib.rs`: feed move.  Asserts that a feed rate is present. -/
noncomputable def g1 (p : PosAndFeed) : Except PanicErr Move :=
  if p.feed.isNone then .error (.assertFail "g1 moves must include a feed rate")
  else g_move_linear "G1" p

/-- Struct `LineSegment` from `geometry/mod.rs`. -/
structure LineSegment where
  start : Point2
  «end» : Point2

/-- Constructor `LineSegment::new`: asserts `start.feed.is_none() && end.feed.is_none()`,
then (verbatim from the source) `start.z.is_none() && end.feed.is_none()`,
then unwraps the four x/y coordinates.  Note the second assertion re-checks
`end.feed` and never looks at `end.z`. -/
def LineSegment.new (start «end» : PosAndFeed) : Except PanicErr LineSegment :=
  if !(start.feed.isNone && «end».feed.isNone) then .error (.assertFail "assertion failed")
  else if !(start.z.isNone && «end».feed.isNone) then .error (.assertFail "assertion failed")
  else
    match start.x, start.y, «end».x, «end».y with
    | some sx, some sy, some ex, some ey => .ok ⟨⟨sx, sy⟩, ⟨ex, ey⟩⟩
    | _, _, _, _ => .error .unwrapNone

/-- Conversion `impl From<Point2<f64>> for PosAndFeed`. -/
def Point2.toPosAndFeed (p : Point2) : PosAndFeed := xy p.x p.y

/-- Struct `Circle` from `geometry/mod.rs`. -/
structure Circle where
  center : Point2
  radius : ℝ

/-- Constructor `Circle::new`: asserts the feed is absent, unwraps x, y, r. -/
def Circle.new (p : PosRadiusAndFeed) : Except PanicErr Circle :=
  if p.feed.isSome then .error (.assertFail "assertion failed")
  else
    match p.x, p.y, p.r with
    | some cx, some cy, some r => .ok ⟨⟨cx, cy⟩, r⟩
    | _, _, _ => .error .unwrapNone

/-- Enum `TrimResult` from `geometry/mod.rs`. -/
inductive TrimResult where
  | Trimmed (seg : LineSegment)
  | Unchanged (seg : LineSegment)
  | None

/-- Method `TrimResult::is_none`. -/
def TrimResult.is_none : TrimResult → Bool
  | .None => true
  | _ => false

/-- Method `TrimResult::is_trimmed`. -/
def TrimResult.is_trimmed : TrimResult → Bool
  | .Trimmed _ => true
  | _ => false

/-- Method `TrimResult::is_unchanged`. -/
def TrimResult.is_unchanged : TrimResult → Bool
  | .Unchanged _ => true
  | _ => false

/-- Method `TrimResult::unwrap`: panics on `None`. -/
def TrimResult.unwrap : TrimResult → Except PanicErr LineSegment
  | .None => .error (.assertFail "Unwrap none")
  | .Trimmed t => .ok t
  | .Unchanged t => .ok t

/-- The coefficient `a = |dir|²` of the line–circle intersection quadratic. -/
noncomputable def quadA (line : LineSegment) : ℝ := (psub line.«end» line.start).norm_squared

/-- The coefficient `b = 2·(start − center)·dir`. -/
noncomputable def quadB (line : LineSegment) (circle : Circle) : ℝ :=
  2 * (psub line.start circle.center).dot (psub line.«end» line.start)

/-- The coefficient `c = |start − center|² − r²`. -/
noncomputable def quadC (line : LineSegment) (circle : Circle) : ℝ :=
  (psub line.start circle.center).norm_squared - circle.radius * circle.radius

/-- The discriminant `b·b − 4·a·c` computed by `trim`. -/
noncomputable def disc (line : LineSegment) (circle : Circle) : ℝ :=
  quadB line circle * quadB line circle - 4 * quadA line * quadC line circle

/-- Function `trim` from `geometry/mod.rs`, translated line by line. -/
noncomputable def trim (line : LineSegment) (circle : Circle) : TrimResult :=
  let to_start := psub line.start circle.center
  let dir := psub line.«end» line.start
  let len_sq := dir.norm_squared
  if len_sq = 0 then
    if to_start.norm_squared ≤ circle.radius * circle.radius then .Unchanged line
    else .None
  else
    let a := len_sq
    let b := 2 * to_start.dot dir
    let c := to_start.norm_squared - circle.radius * circle.radius
    let discriminant := b * b - 4 * a * c
    if discriminant ≤ 0 then .None
    else
      let sqrt_disc := Real.sqrt discriminant
      let t1 := (-b - sqrt_disc) / (2 * a)
      let t2 := (-b + sqrt_disc) / (2 * a)
      if (t1 > 1 ∧ t2 > 1) ∨ (t1 < 0 ∧ t2 < 0) then .None
      else
        let t_min := min (max t1 0) 1
        let t_max := min (max t2 0) 1
        let p1 := line.start.addScaled t_min dir
        let p2 := line.start.addScaled t_max dir
        if t_min = 0 ∧ t_max = 1 then .Unchanged line
        else .Trimmed ⟨p1, p2⟩

/-- Shape of the move emitted by `g1(zf(zv, feed))` (plunge or retract). -/
noncomputable def zFeedMove (zv feed : ℝ) : Move :=
  ⟨"G1", g_val "Z" (some zv) ++ g_val "F" (some feed)⟩

/-- Shape of the cutting move emitted by `g1(xyf(x, y, feed))`. -/
noncomputable def xyFeedMove (x y feed : ℝ) : Move :=
  ⟨"G1", g_val "X" (some x) ++ g_val "Y" (some y) ++ g_val "F" (some feed)⟩

/-- Shape of the rapid-then-plunge pair emitted when the walker engages the
cutter at point `p`. -/
noncomputable def engageMoves (z_cut feed : ℝ) (p : Point2) : List Move :=
  [⟨"G0", g_val "X" (some p.x) ++ g_val "Y" (some p.y)⟩, zFeedMove z_cut feed]

/-- The body of the `for` loop of `trimmed_g1_path` for one consecutive
waypoint pair `(p, q)`: returns the moves it emits and the new `cutter_down`
flag. -/
noncomputable def stepSeg (z_safe z_cut feed : ℝ) (trimmer : Circle)
    (cutter_down : Bool) (p q : PosAndFeed) : Except PanicErr (List Move × Bool) := do
  let ls ← LineSegment.new p q
  let seg := trim ls trimmer
  let raise_at_end := seg.is_none || seg.is_trimmed
  let msCd ←
    if !seg.is_none then do
      let points ← seg.unwrap
      let p1 := points.start.toPosAndFeed
      let p2 := points.«end».toPosAndFeed
      let pre ←
        if !cutter_down then do
          let mA ← g0 p1
          let mB ← g1 (zf z_cut feed)
          pure [mA, mB]
        else
          pure ([] : List Move)
      match p2.x, p2.y with
      | some vx, some vy => do
          let mC ← g1 (xyf vx vy feed)
          pure (pre ++ [mC], true)
      | _, _ => .error .unwrapNone
    else
      pure (([] : List Move), cutter_down)
  if raise_at_end && msCd.2 then do
    let mR ← g1 (zf z_safe feed)
    pure (msCd.1 ++ [mR], false)
  else
    pure msCd

/-- The remainder of the walk of `trimmed_g1_path` over the consecutive
waypoint pairs, threading `cutter_down`, ending with the final retract if the
cutter is still down. -/
noncomputable def walkFrom (z_safe z_cut feed : ℝ) (trimmer : Circle) :
    Bool → List (PosAndFeed × PosAndFeed) → Except PanicErr (List Move)
  | cutter_down, [] =>
      if cutter_down then do
        let mR ← g1 (zf z_safe feed)
        pure [mR]
      else pure []
  | cutter_down, (p, q) :: rest => do
      let msCd ← stepSeg z_safe z_cut feed trimmer cutter_down p q
      let msRest ← walkFrom z_safe z_cut feed trimmer msCd.2 rest
      pure (msCd.1 ++ msRest)

/-- Function `trimmed_g1_path` from `lib.rs`: raise the cutter to `z_safe`, build the
trimming circle, then walk the consecutive waypoint pairs.  On an empty path,
`path.len() - 1` underflows (a panic in debug builds; in release builds the
wrapped range makes the first index access panic), modelled as an error. -/
noncomputable def trimmed_g1_path (z_safe z_cut feed : ℝ)
    (path : List PosAndFeed) (circle : PosRadiusAndFeed) :
    Except PanicErr (List Move) := do
  let m0 ← g0 (z z_safe)
  let trimmer ← Circle.new circle
  if path.length = 0 then
    .error .usizeUnderflow
  else do
    let rest ← walkFrom z_safe z_cut feed trimmer false (path.zip path.tail)
    pure (m0 :: rest)

/-- The token names contributed to the output by one optional axis value. -/
def optName (n : String) (o : Option ℝ) : List String :=
  match o with
  | none => []
  | some _ => [n]

/-! ## Evaluation helpers -/

theorem except_bind_ok {α β : Type} (a : α) (f : α → Except PanicErr β) :
    (do let x ← (.ok a : Except PanicErr α); f x) = f a := rfl

theorem except_bind_err {α β : Type} (e : PanicErr) (f : α → Except PanicErr β) :
    (do let x ← (.error e : Except PanicErr α); f x) = (.error e : Except PanicErr β) := rfl

theorem except_pure {α : Type} (a : α) :
    (pure a : Except PanicErr α) = .ok a := rfl

theorem g_val_none (n : String) : g_val n none = [] := rfl

theorem g_val_intCast (n : String) (k : ℤ) :
    g_val n (some (k : ℝ)) = [⟨n, .integral k⟩] := by
  have hr : rustRound ((k : ℤ) : ℝ) = k := by
    unfold rustRound
    split
    · exact round_intCast k
    · rw [← Int.cast_neg, round_intCast]; ring
  have hcond : |((k : ℤ) : ℝ) - ((rustRound ((k : ℤ) : ℝ) : ℤ) : ℝ)| < f64Epsilon := by
    rw [hr, sub_self, abs_zero]
    simp only [f64Epsilon]
    positivity
  simp only [g_val]
  rw [if_pos hcond, hr]

theorem as_gvals_xy (a b : ℝ) :
    (xy a b).as_gvals = .ok (g_val "X" (some a) ++ g_val "Y" (some b)) := by
  simp [PosAndFeed.as_gvals, xy, g_val_none]

theorem g0_xy (a b : ℝ) :
    g0 (xy a b) = .ok ⟨"G0", g_val "X" (some a) ++ g_val "Y" (some b)⟩ := by
  simp [g0, xy, g_move_linear, PosAndFeed.as_gvals, g_val_none,
    except_bind_ok, except_pure]

theorem g0_xy_mk (a b : ℝ) :
    g0 ⟨some a, some b, none, none, none⟩ =
      .ok ⟨"G0", g_val "X" (some a) ++ g_val "Y" (some b)⟩ := by
  simp [g0, g_move_linear, PosAndFeed.as_gvals, g_val_none,
    except_bind_ok, except_pure]

theorem g1_zf (zv fv : ℝ) : g1 (zf zv fv) = .ok (zFeedMove zv fv) := by
  simp [g1, zf, g_move_linear, PosAndFeed.as_gvals, zFeedMove, g_val_none,
    except_bind_ok, except_pure]

theorem g1_xyf (a b fv : ℝ) : g1 (xyf a b fv) = .ok (xyFeedMove a b fv) := by
  simp [g1, xyf, g_move_linear, PosAndFeed.as_gvals, xyFeedMove, g_val_none,
    except_bind_ok, except_pure]

theorem g0_z_pos (zv : ℝ) (h : 0 < zv) :
    g0 (z zv) = .ok ⟨"G0", g_val "Z" (some zv)⟩ := by
  simp [g0, z, g_move_linear, PosAndFeed.as_gvals, g_val_none, h,
    except_bind_ok, except_pure]

/-! ## Claim theorems: move emission (C3, C4, C9) -/

/-- C3 counterexample: a rapid move carrying `z = 0` is rejected by the
`z > 0.0` assertion, even though the claim says every non-negative `z`
(in particular `z = 0`) is accepted. -/
theorem g0_zero_z_rejected :
    g0 (z 0) = .error (.assertFail "Rapid move at negative z") := by
  simp [g0, z, lt_self_iff_false]

/-- C3 (corrected): emitting a rapid move that carries a vertical axis value
succeeds exactly when that value is strictly positive; `z = 0` is rejected. -/
theorem g0_vertical_guard (p : PosAndFeed) (zv : ℝ)
    (hf : p.feed = none) (hz : p.z = some zv) :
    (∃ m, g0 p = .ok m) ↔ 0 < zv := by
  simp only [g0, hf, hz, Option.isSome_none, Bool.false_eq_true, if_false]
  split_ifs with hpos
  · simp only [gt_iff_lt] at hpos
    constructor
    · intro _; exact hpos
    · intro _
      have hok : p.as_gvals =
          .ok (g_val "X" p.x ++ g_val "Y" p.y ++ g_val "Z" p.z ++ g_val "A" p.a ++
            g_val "F" p.feed) := by
        simp [PosAndFeed.as_gvals, hz]
      exact ⟨⟨"G0", g_val "X" p.x ++ g_val "Y" p.y ++ g_val "Z" p.z ++ g_val "A" p.a ++
          g_val "F" p.feed⟩, by simp [g_move_linear, hok, except_bind_ok, except_pure]⟩
  · simp only [gt_iff_lt] at hpos
    constructor
    · rintro ⟨m, hm⟩; simp at hm
    · intro h; exact absurd h hpos

/-- Witness for C3's corrected theorem at `z = 1`. -/
theorem g0_vertical_guard_witness :
    (z 1).feed = none ∧ (z 1).z = some 1 ∧ (∃ m, g0 (z 1) = .ok m) :=
  ⟨rfl, rfl, (g0_vertical_guard (z 1) 1 rfl rfl).mpr (by norm_num)⟩

/-- C4 (confirmed): a rapid move fails when a feed rate is supplied; a feed
move fails when the feed rate is absent; and a move of either kind fails when
no axis value at all is present. -/
theorem move_kind_contract :
    (∀ (p : PosAndFeed) (f : ℝ), p.feed = some f →
        g0 p = .error (.assertFail "g0 moves must not include a feed rate")) ∧
    (∀ p : PosAndFeed, p.feed = none →
        g1 p = .error (.assertFail "g1 moves must include a feed rate")) ∧
    (∀ p : PosAndFeed, p.x = none → p.y = none → p.z = none → p.a = none →
        (∃ e, g0 p = .error e) ∧ (∃ e, g1 p = .error e)) := by
  refine ⟨?_, ?_, ?_⟩
  · intro p f hf; simp [g0, hf]
  · intro p hf; simp [g1, hf]
  · intro p hx hy hz' ha
    have hgv : p.as_gvals = .error (.assertFail "Refusing to make illegal move") := by
      simp [PosAndFeed.as_gvals, hx, hy, hz', ha]
    constructor
    · cases hfd : p.feed with
      | some f =>
          exact ⟨.assertFail "g0 moves must not include a feed rate",
            by simp [g0, hfd]⟩
      | none =>
          exact ⟨.assertFail "Refusing to make illegal move",
            by simp [g0, hz', hfd, g_move_linear, hgv, except_bind_err]⟩
    · cases hfd : p.feed with
      | none =>
          exact ⟨.assertFail "g1 moves must include a feed rate",
            by simp [g1, hfd]⟩
      | some f =>
          exact ⟨.assertFail "Refusing to make illegal move",
            by simp [g1, hfd, g_move_linear, hgv, except_bind_err]⟩

/-- Witness for C4 at concrete moves. -/
theorem move_kind_contract_witness :
    g0 (xyf 1 2 3) = .error (.assertFail "g0 moves must not include a feed rate") ∧
    g1 (xy 1 2) = .error (.assertFail "g1 moves must include a feed rate") ∧
    (∃ e, g0 ⟨none, none, none, none, none⟩ = .error e) ∧
    (∃ e, g1 ⟨none, none, none, none, none⟩ = .error e) :=
  ⟨move_kind_contract.1 (xyf 1 2 3) 3 rfl,
   move_kind_contract.2.1 (xy 1 2) rfl,
   (move_kind_contract.2.2 ⟨none, none, none, none, none⟩ rfl rfl rfl rfl).1,
   (move_kind_contract.2.2 ⟨none, none, none, none, none⟩ rfl rfl rfl rfl).2⟩

/-- C9 (confirmed): `trimmed_g1_path` first emits a rapid retract to `z_safe`,
and since `g0` asserts that a present vertical value is strictly positive,
every invocation with `z_safe ≤ 0` aborts before emitting anything:
`z_safe > 0` is an unstated precondition of the path walker. -/
theorem trimmed_g1_path_requires_positive_z_safe
    (z_safe z_cut feed : ℝ) (path : List PosAndFeed) (circle : PosRadiusAndFeed)
    (hz : z_safe ≤ 0) :
    trimmed_g1_path z_safe z_cut feed path circle =
      .error (.assertFail "Rapid move at negative z") := by
  have h0 : g0 (z z_safe) = .error (.assertFail "Rapid move at negative z") := by
    simp [g0, z, not_lt.mpr hz]
  simp [trimmed_g1_path, h0, except_bind_err]

/-- Witness for C9 at `z_safe = 0`. -/
theorem trimmed_g1_path_requires_positive_z_safe_witness :
    trimmed_g1_path 0 (-1) 100 [xy 0 0, xy 1 0] (xyr 0 0 1) =
      .error (.assertFail "Rapid move at negative z") :=
  trimmed_g1_path_requires_positive_z_safe 0 (-1) 100 _ _ (by norm_num)

/-! ## Claim theorems: trim classification (C5, C6) and segment construction (C10) -/

/-- C5 (confirmed): for every non-zero-length segment and circle whose
line–circle intersection quadratic has discriminant ≤ 0 (no real
intersection, or exact tangency), `trim` returns Eliminated (`None`); in
particular an exactly tangent segment never yields a zero-length Clipped
result. -/
theorem trim_nonpos_disc_eliminated (line : LineSegment) (circle : Circle)
    (hlen : quadA line ≠ 0) (hd : disc line circle ≤ 0) :
    trim line circle = .None ∧ ∀ s, trim line circle ≠ .Trimmed s := by
  simp only [quadA] at hlen
  simp only [disc, quadA, quadB, quadC] at hd
  have hmain : trim line circle = .None := by
    simp only [trim]
    rw [if_neg hlen, if_pos hd]
  exact ⟨hmain, fun s => by simp [hmain]⟩

/-- Witness for C5: the segment (-1,1)→(1,1), exactly tangent to the unit
circle (discriminant 0), is eliminated. -/
theorem trim_nonpos_disc_eliminated_witness :
    quadA ⟨⟨-1, 1⟩, ⟨1, 1⟩⟩ ≠ 0 ∧
    disc ⟨⟨-1, 1⟩, ⟨1, 1⟩⟩ ⟨⟨0, 0⟩, 1⟩ ≤ 0 ∧
    trim ⟨⟨-1, 1⟩, ⟨1, 1⟩⟩ ⟨⟨0, 0⟩, 1⟩ = .None :=
  ⟨by norm_num [quadA, psub, Vec2.norm_squared],
   by norm_num [disc, quadA, quadB, quadC, psub, Vec2.norm_squared, Vec2.dot],
   (trim_nonpos_disc_eliminated ⟨⟨-1, 1⟩, ⟨1, 1⟩⟩ ⟨⟨0, 0⟩, 1⟩
      (by norm_num [quadA, psub, Vec2.norm_squared])
      (by norm_num [disc, quadA, quadB, quadC, psub, Vec2.norm_squared, Vec2.dot])).1⟩

/-- C6 (confirmed): for a zero-length segment (start = end), `trim` returns
`Unchanged` exactly when the single point lies within or on the circle
(distance from the center at most the radius), and Eliminated (`None`)
exactly otherwise. -/
theorem trim_zero_length (line : LineSegment) (circle : Circle)
    (hr : 0 ≤ circle.radius) (hse : line.start = line.«end») :
    (trim line circle = .Unchanged line ↔
      Real.sqrt ((psub line.start circle.center).norm_squared) ≤ circle.radius) ∧
    (trim line circle = .None ↔
      circle.radius < Real.sqrt ((psub line.start circle.center).norm_squared)) := by
  have hlen : (psub line.«end» line.start).norm_squared = 0 := by
    rw [← hse]; simp [psub, Vec2.norm_squared]
  have hiff : Real.sqrt ((psub line.start circle.center).norm_squared) ≤ circle.radius ↔
      (psub line.start circle.center).norm_squared ≤ circle.radius * circle.radius := by
    rw [Real.sqrt_le_left hr, pow_two]
  simp only [trim]
  rw [if_pos hlen]
  by_cases hin : (psub line.start circle.center).norm_squared ≤ circle.radius * circle.radius
  · rw [if_pos hin]
    refine ⟨⟨fun _ => hiff.mpr hin, fun _ => rfl⟩, ⟨fun h => ?_, fun h => ?_⟩⟩
    · simp at h
    · exact absurd (hiff.mpr hin) (not_le.mpr h)
  · rw [if_neg hin]
    have hgt : circle.radius < Real.sqrt ((psub line.start circle.center).norm_squared) :=
      not_le.mp ((not_congr hiff).mpr hin)
    refine ⟨⟨fun h => ?_, fun h => ?_⟩, ⟨fun _ => hgt, fun _ => rfl⟩⟩
    · simp at h
    · exact absurd h (not_le.mpr hgt)

/-- Witness for C6: the zero-length segment at (1/2, 0) inside the unit
circle is `Unchanged`, and the one at (2, 0) outside it is eliminated. -/
theorem trim_zero_length_witness :
    trim ⟨⟨1/2, 0⟩, ⟨1/2, 0⟩⟩ ⟨⟨0, 0⟩, 1⟩ = .Unchanged ⟨⟨1/2, 0⟩, ⟨1/2, 0⟩⟩ ∧
    trim ⟨⟨2, 0⟩, ⟨2, 0⟩⟩ ⟨⟨0, 0⟩, 1⟩ = .None := by
  constructor
  · apply (trim_zero_length ⟨⟨1/2, 0⟩, ⟨1/2, 0⟩⟩ ⟨⟨0, 0⟩, 1⟩ (by norm_num) rfl).1.mpr
    rw [show (psub (⟨1/2, 0⟩ : Point2) (⟨0, 0⟩ : Point2)).norm_squared = (1/4 : ℝ) by
          norm_num [psub, Vec2.norm_squared],
        show (1/4 : ℝ) = (1/2) ^ 2 by norm_num, Real.sqrt_sq (by norm_num)]
    norm_num
  · apply (trim_zero_length ⟨⟨2, 0⟩, ⟨2, 0⟩⟩ ⟨⟨0, 0⟩, 1⟩ (by norm_num) rfl).2.mpr
    rw [show (psub (⟨2, 0⟩ : Point2) (⟨0, 0⟩ : Point2)).norm_squared = (4 : ℝ) by
          norm_num [psub, Vec2.norm_squared],
        show (4 : ℝ) = 2 ^ 2 by norm_num, Real.sqrt_sq (by norm_num)]
    norm_num

/-- C10 (confirmed): `LineSegment::new` aborts exactly when a waypoint lacks
an x or y value, when either waypoint carries a feed rate, or when the start
waypoint carries a z value; the end waypoint's z value is never inspected
(the second assertion re-checks `end.feed` instead), so a z supplied on the
final waypoint of a path is silently discarded rather than rejected. -/
theorem line_segment_new_contract (start q : PosAndFeed) :
    ((∃ e, LineSegment.new start q = .error e) ↔
      (start.feed ≠ none ∨ q.feed ≠ none ∨ start.z ≠ none ∨
        start.x = none ∨ start.y = none ∨ q.x = none ∨ q.y = none)) ∧
    (∀ zv : Option ℝ, LineSegment.new start { q with z := zv } = LineSegment.new start q) := by
  obtain ⟨sx, sy, sz, sa, sf⟩ := start
  obtain ⟨qx, qy, qz, qa, qf⟩ := q
  constructor
  · cases sf <;> cases qf <;> cases sz <;> cases sx <;> cases sy <;> cases qx <;> cases qy <;>
      simp [LineSegment.new]
  · intro zv; rfl

/-! ## Claim theorems: the Clipped invariant (C7) -/

/-- The squared distance from the circle center to the point at parameter `t`
on the segment is the intersection quadratic plus `r²`. -/
theorem normSq_param (line : LineSegment) (circle : Circle) (t : ℝ) :
    (psub (line.start.addScaled t (psub line.«end» line.start)) circle.center).norm_squared =
      quadA line * t ^ 2 + quadB line circle * t + quadC line circle +
        circle.radius * circle.radius := by
  simp only [psub, Point2.addScaled, Vec2.norm_squared, Vec2.dot, quadA, quadB, quadC]
  ring

/-- A quadratic with positive leading coefficient is non-positive between its
two real roots. -/
theorem quad_nonpos_between (a b c t : ℝ) (ha : 0 < a) (hd : 0 < b * b - 4 * a * c)
    (h1 : (-b - Real.sqrt (b * b - 4 * a * c)) / (2 * a) ≤ t)
    (h2 : t ≤ (-b + Real.sqrt (b * b - 4 * a * c)) / (2 * a)) :
    a * t ^ 2 + b * t + c ≤ 0 := by
  have hs2 : Real.sqrt (b * b - 4 * a * c) ^ 2 = b * b - 4 * a * c := Real.sq_sqrt hd.le
  have h2a : (0 : ℝ) < 2 * a := by linarith
  rw [div_le_iff₀ h2a] at h1
  rw [le_div_iff₀ h2a] at h2
  have hu1 : 0 ≤ Real.sqrt (b * b - 4 * a * c) - (2 * a * t + b) := by nlinarith [h2]
  have hu2 : 0 ≤ Real.sqrt (b * b - 4 * a * c) + (2 * a * t + b) := by nlinarith [h1]
  nlinarith [mul_nonneg hu1 hu2, hs2, mul_pos ha ha]

/-- C7 (confirmed): whenever `trim` returns `Trimmed s`, both endpoints of
`s` lie on or inside the circle, and `s` is the sub-segment of the input for
a parameter interval `[t_min, t_max]` with `0 ≤ t_min ≤ t_max ≤ 1`. -/
theorem trim_clipped_invariant (line : LineSegment) (circle : Circle) (s : LineSegment)
    (hr : 0 ≤ circle.radius) (h : trim line circle = .Trimmed s) :
    Real.sqrt ((psub s.start circle.center).norm_squared) ≤ circle.radius ∧
    Real.sqrt ((psub s.«end» circle.center).norm_squared) ≤ circle.radius ∧
    ∃ t_min t_max : ℝ, 0 ≤ t_min ∧ t_min ≤ t_max ∧ t_max ≤ 1 ∧
      s.start = line.start.addScaled t_min (psub line.«end» line.start) ∧
      s.«end» = line.start.addScaled t_max (psub line.«end» line.start) := by
  simp only [trim] at h
  set dir := psub line.«end» line.start with hdir
  set ts := psub line.start circle.center with hts
  set A := dir.norm_squared with hA
  set B := 2 * ts.dot dir with hB
  set C := ts.norm_squared - circle.radius * circle.radius with hC
  set D := B * B - 4 * A * C with hD
  set sqd := Real.sqrt D with hsqd
  set t1 := (-B - sqd) / (2 * A) with ht1
  set t2 := (-B + sqd) / (2 * A) with ht2
  by_cases h0 : A = 0
  · rw [if_pos h0] at h
    split_ifs at h
  rw [if_neg h0] at h
  by_cases h1 : D ≤ 0
  · rw [if_pos h1] at h; simp at h
  rw [if_neg h1] at h
  by_cases h2 : (t1 > 1 ∧ t2 > 1) ∨ (t1 < 0 ∧ t2 < 0)
  · rw [if_pos h2] at h; simp at h
  rw [if_neg h2] at h
  set t_min := min (max t1 0) 1 with htmin
  set t_max := min (max t2 0) 1 with htmax
  by_cases h3 : t_min = 0 ∧ t_max = 1
  · rw [if_pos h3] at h; simp at h
  rw [if_neg h3] at h
  rw [TrimResult.Trimmed.injEq] at h
  subst h
  dsimp only
  -- basic positivity facts
  have hA0 : 0 ≤ A := by
    rw [hA]
    have hx := mul_self_nonneg dir.x
    have hy := mul_self_nonneg dir.y
    simp only [Vec2.norm_squared]
    linarith
  have hApos : 0 < A := lt_of_le_of_ne hA0 (Ne.symm h0)
  have hDpos : 0 < D := not_le.mp h1
  have hsq0 : 0 ≤ sqd := by rw [hsqd]; exact Real.sqrt_nonneg D
  have h2A : (0 : ℝ) < 2 * A := by linarith
  have ht12 : t1 ≤ t2 := by
    rw [ht1, ht2]
    exact (div_le_div_iff_of_pos_right h2A).mpr (by linarith)
  have ht1le1 : t1 ≤ 1 := by
    by_contra hgt
    push_neg at hgt
    exact h2 (Or.inl ⟨hgt, lt_of_lt_of_le hgt ht12⟩)
  have ht2ge0 : 0 ≤ t2 := by
    by_contra hlt
    push_neg at hlt
    exact h2 (Or.inr ⟨lt_of_le_of_lt ht12 hlt, hlt⟩)
  -- the clamped parameters and their bounds
  have htmin0 : 0 ≤ t_min := le_min (le_max_right _ _) zero_le_one
  have htmax1 : t_max ≤ 1 := min_le_right _ _
  have htminmax : t_min ≤ t_max := min_le_min (max_le_max ht12 le_rfl) le_rfl
  have ht1min : t1 ≤ t_min := le_min (le_max_left _ _) ht1le1
  have htmaxt2 : t_max ≤ t2 := by
    rw [htmax, max_eq_left ht2ge0]
    exact min_le_left _ _
  have htmint2 : t_min ≤ t2 := le_trans htminmax htmaxt2
  have ht1max : t1 ≤ t_max := le_trans ht1min htminmax
  -- the quadratic is non-positive at both clamped parameters
  have hquad : ∀ t : ℝ, t1 ≤ t → t ≤ t2 → A * t ^ 2 + B * t + C ≤ 0 := by
    intro t hta htb
    apply quad_nonpos_between A B C t hApos (by rw [← hD]; exact hDpos)
    · rw [show (-B - Real.sqrt (B * B - 4 * A * C)) / (2 * A) = t1 by rw [ht1, hsqd, hD]]
      exact hta
    · rw [show (-B + Real.sqrt (B * B - 4 * A * C)) / (2 * A) = t2 by rw [ht2, hsqd, hD]]
      exact htb
  -- squared distance at the clamped parameters
  have hdist : ∀ t : ℝ, t1 ≤ t → t ≤ t2 →
      Real.sqrt ((psub (line.start.addScaled t dir) circle.center).norm_squared) ≤
        circle.radius := by
    intro t hta htb
    rw [Real.sqrt_le_left hr, pow_two]
    have hparam := normSq_param line circle t
    simp only [quadA, quadB, quadC] at hparam
    rw [← hdir, ← hts, ← hA, ← hB, ← hC] at hparam
    rw [hparam]
    linarith [hquad t hta htb]
  exact ⟨hdist t_min ht1min htmint2, hdist t_max ht1max htmaxt2,
    t_min, t_max, htmin0, htminmax, htmax1, rfl, rfl⟩

/-- Evaluation of `trim` on the segment (-2,0)→(2,0) against the unit
circle: clipped to (-1,0)→(1,0). -/
theorem trim_eval_cross :
    trim ⟨⟨-2, 0⟩, ⟨2, 0⟩⟩ ⟨⟨0, 0⟩, 1⟩ = .Trimmed ⟨⟨-1, 0⟩, ⟨1, 0⟩⟩ := by
  have hs : Real.sqrt (64 : ℝ) = 8 := by
    rw [show (64 : ℝ) = 8 ^ 2 by norm_num, Real.sqrt_sq (by norm_num : (0 : ℝ) ≤ 8)]
  simp only [trim, psub, Vec2.norm_squared, Vec2.dot, Point2.addScaled]
  norm_num [hs, min_def, max_def]

/-- Witness for C7 on the clipped segment (-2,0)→(2,0). -/
theorem trim_clipped_invariant_witness :
    trim ⟨⟨-2, 0⟩, ⟨2, 0⟩⟩ ⟨⟨0, 0⟩, 1⟩ = .Trimmed ⟨⟨-1, 0⟩, ⟨1, 0⟩⟩ ∧
    (Real.sqrt ((psub (⟨⟨-1, 0⟩, ⟨1, 0⟩⟩ : LineSegment).start
        (⟨⟨0, 0⟩, 1⟩ : Circle).center).norm_squared) ≤ (⟨⟨0, 0⟩, 1⟩ : Circle).radius ∧
     Real.sqrt ((psub (⟨⟨-1, 0⟩, ⟨1, 0⟩⟩ : LineSegment).«end»
        (⟨⟨0, 0⟩, 1⟩ : Circle).center).norm_squared) ≤ (⟨⟨0, 0⟩, 1⟩ : Circle).radius ∧
     ∃ t_min t_max : ℝ, 0 ≤ t_min ∧ t_min ≤ t_max ∧ t_max ≤ 1 ∧
       (⟨⟨-1, 0⟩, ⟨1, 0⟩⟩ : LineSegment).start =
         (⟨⟨-2, 0⟩, ⟨2, 0⟩⟩ : LineSegment).start.addScaled t_min
           (psub (⟨⟨-2, 0⟩, ⟨2, 0⟩⟩ : LineSegment).«end»
             (⟨⟨-2, 0⟩, ⟨2, 0⟩⟩ : LineSegment).start) ∧
       (⟨⟨-1, 0⟩, ⟨1, 0⟩⟩ : LineSegment).«end» =
         (⟨⟨-2, 0⟩, ⟨2, 0⟩⟩ : LineSegment).start.addScaled t_max
           (psub (⟨⟨-2, 0⟩, ⟨2, 0⟩⟩ : LineSegment).«end»
             (⟨⟨-2, 0⟩, ⟨2, 0⟩⟩ : LineSegment).start)) :=
  ⟨trim_eval_cross,
   trim_clipped_invariant ⟨⟨-2, 0⟩, ⟨2, 0⟩⟩ ⟨⟨0, 0⟩, 1⟩ ⟨⟨-1, 0⟩, ⟨1, 0⟩⟩
     (by norm_num) trim_eval_cross⟩

/-! ## Claim theorems: serialization (C8) -/

theorem g_val_one (n : String) : g_val n (some (1 : ℝ)) = [⟨n, .integral 1⟩] := by
  have h := g_val_intCast n 1
  simpa using h

theorem g_val_hundred (n : String) : g_val n (some (100 : ℝ)) = [⟨n, .integral 100⟩] := by
  have h := g_val_intCast n 100
  simpa using h

theorem rustRound_half : rustRound (1 / 2 : ℝ) = 1 := by
  unfold rustRound
  norm_num [round_eq]

theorem g_val_half (n : String) : g_val n (some (1 / 2 : ℝ)) = [⟨n, .fixed4 (1 / 2)⟩] := by
  simp only [g_val, rustRound_half]
  rw [if_neg]
  rw [show ((1 : ℤ) : ℝ) = 1 by norm_num,
    show |(1 / 2 : ℝ) - 1| = 1 / 2 by rw [abs_of_nonpos] <;> norm_num]
  simp only [f64Epsilon]
  norm_num

theorem rustRound_pow53 : rustRound (1 / 2 ^ 53 : ℝ) = 0 := by
  unfold rustRound
  norm_num [round_eq]

/-- C8 counterexample: `2⁻⁵³` is distinct from its own rounding (0), yet
`g_val` renders it in the integral form `0.` — not with 4 fractional digits —
because the code tests `|v - v.round()| < f64::EPSILON` rather than exact
integrality. -/
theorem g_val_tolerance_counterexample :
    (1 / 2 ^ 53 : ℝ) ≠ ((rustRound (1 / 2 ^ 53 : ℝ) : ℤ) : ℝ) ∧
    g_val "Z" (some (1 / 2 ^ 53 : ℝ)) = [⟨"Z", .integral 0⟩] := by
  constructor
  · rw [rustRound_pow53]; norm_num
  · simp only [g_val, rustRound_pow53]
    rw [if_pos]
    rw [show ((0 : ℤ) : ℝ) = 0 by norm_num, sub_zero, abs_of_nonneg (by positivity)]
    simp only [f64Epsilon]
    norm_num

theorem g_val_map_name (n : String) (o : Option ℝ) :
    (g_val n o).map GVal.name = optName n o := by
  cases o with
  | none => rfl
  | some v =>
      simp only [g_val, optName]
      split_ifs <;> rfl

/-- C8 (corrected): a successful serialization emits the present axis tokens
in the fixed canonical order X, Y, Z, A, F (feed last), and each token is in
integral form exactly when its value is within `f64::EPSILON` of its rounding
(rather than exactly equal to it), and in 4-fractional-digit form
otherwise. -/
theorem as_gvals_canonical_order (p : PosAndFeed) (l : List GVal)
    (h : p.as_gvals = .ok l) :
    l.map GVal.name =
      optName "X" p.x ++ optName "Y" p.y ++ optName "Z" p.z ++ optName "A" p.a ++
        optName "F" p.feed ∧
    (∀ (n : String) (v : ℝ), |v - (rustRound v : ℝ)| < f64Epsilon →
        g_val n (some v) = [⟨n, .integral (rustRound v)⟩]) ∧
    (∀ (n : String) (v : ℝ), ¬ |v - (rustRound v : ℝ)| < f64Epsilon →
        g_val n (some v) = [⟨n, .fixed4 v⟩]) := by
  refine ⟨?_, ?_, ?_⟩
  · unfold PosAndFeed.as_gvals at h
    split at h
    · simp at h
    · rw [Except.ok.injEq] at h
      subst h
      simp [List.map_append, g_val_map_name]
  · intro n v hv; simp [g_val, hv]
  · intro n v hv; simp [g_val, hv]

/-- Witness for C8's corrected theorem on the move `xyf 1 (1/2) 100`. -/
theorem as_gvals_canonical_order_witness :
    (xyf 1 (1/2) 100).as_gvals =
      .ok [⟨"X", .integral 1⟩, ⟨"Y", .fixed4 (1/2)⟩, ⟨"F", .integral 100⟩] ∧
    (([(⟨"X", .integral 1⟩ : GVal), ⟨"Y", .fixed4 (1/2)⟩, ⟨"F", .integral 100⟩].map GVal.name =
        optName "X" (xyf 1 (1/2) 100).x ++ optName "Y" (xyf 1 (1/2) 100).y ++
          optName "Z" (xyf 1 (1/2) 100).z ++ optName "A" (xyf 1 (1/2) 100).a ++
          optName "F" (xyf 1 (1/2) 100).feed) ∧
      (∀ (n : String) (v : ℝ), |v - (rustRound v : ℝ)| < f64Epsilon →
          g_val n (some v) = [⟨n, .integral (rustRound v)⟩]) ∧
      (∀ (n : String) (v : ℝ), ¬ |v - (rustRound v : ℝ)| < f64Epsilon →
          g_val n (some v) = [⟨n, .fixed4 v⟩])) := by
  have heval : (xyf 1 (1/2) 100).as_gvals =
      .ok [⟨"X", .integral 1⟩, ⟨"Y", .fixed4 (1/2)⟩, ⟨"F", .integral 100⟩] := by
    have hy := g_val_half "Y"
    rw [show (1/2 : ℝ) = 2⁻¹ by norm_num] at hy
    simp [PosAndFeed.as_gvals, xyf, g_val_none, g_val_one, hy, g_val_hundred]
  exact ⟨heval, as_gvals_canonical_order (xyf 1 (1/2) 100) _ heval⟩

/-! ## Claim theorems: the path walker (C1, C2) -/

theorem g_val_zero (n : String) : g_val n (some (0 : ℝ)) = [⟨n, .integral 0⟩] := by
  have h := g_val_intCast n 0
  simpa using h

theorem g_val_mone (n : String) : g_val n (some (-1 : ℝ)) = [⟨n, .integral (-1)⟩] := by
  have h := g_val_intCast n (-1)
  simpa using h

/-- Closed form of one loop iteration of `trimmed_g1_path`, by cases on the
trim outcome of the segment. -/
theorem stepSeg_eval (z_safe z_cut feed : ℝ) (trimmer : Circle)
    (cd : Bool) (p q : PosAndFeed) (ls : LineSegment)
    (hls : LineSegment.new p q = .ok ls) :
    stepSeg z_safe z_cut feed trimmer cd p q =
      match trim ls trimmer with
      | .Unchanged s =>
          .ok ((if cd then [] else engageMoves z_cut feed s.start) ++
            [xyFeedMove s.«end».x s.«end».y feed], true)
      | .Trimmed s =>
          .ok ((if cd then [] else engageMoves z_cut feed s.start) ++
            [xyFeedMove s.«end».x s.«end».y feed, zFeedMove z_safe feed], false)
      | .None => .ok (if cd then ([zFeedMove z_safe feed], false) else ([], false)) := by
  unfold stepSeg
  rw [hls, except_bind_ok]
  cases htr : trim ls trimmer with
  | Unchanged s =>
      cases cd <;>
        simp [htr, TrimResult.is_none, TrimResult.is_trimmed, TrimResult.unwrap,
          Point2.toPosAndFeed, xy, g0_xy_mk, g1_zf, g1_xyf, engageMoves, zFeedMove,
          except_bind_ok, except_pure]
  | Trimmed s =>
      cases cd <;>
        simp [htr, TrimResult.is_none, TrimResult.is_trimmed, TrimResult.unwrap,
          Point2.toPosAndFeed, xy, g0_xy_mk, g1_zf, g1_xyf, engageMoves, zFeedMove,
          except_bind_ok, except_pure]
  | None =>
      cases cd <;>
        simp [htr, TrimResult.is_none, TrimResult.is_trimmed, g1_zf,
          except_bind_ok, except_pure]

/-- C1 (corrected): the walker's per-segment state transitions.  After an
`Unchanged` segment the cutter stays engaged and no retract is emitted for
that segment; after a `Trimmed` (Clipped) segment the walker always emits a
feed retract to safe height right after the cut and ends retracted; an
Eliminated segment emits a retract exactly when the cutter was engaged.
Unchanged and Clipped are therefore NOT treated identically: the Clipped
classification itself triggers a retract. -/
theorem stepSeg_state_transition (z_safe z_cut feed : ℝ) (trimmer : Circle)
    (cd : Bool) (p q : PosAndFeed) (ls : LineSegment) (ms : List Move) (cd' : Bool)
    (hls : LineSegment.new p q = .ok ls)
    (hstep : stepSeg z_safe z_cut feed trimmer cd p q = .ok (ms, cd')) :
    (∀ s, trim ls trimmer = .Unchanged s →
        cd' = true ∧
        ms = (if cd then [] else engageMoves z_cut feed s.start) ++
          [xyFeedMove s.«end».x s.«end».y feed]) ∧
    (∀ s, trim ls trimmer = .Trimmed s →
        cd' = false ∧
        ms = (if cd then [] else engageMoves z_cut feed s.start) ++
          [xyFeedMove s.«end».x s.«end».y feed, zFeedMove z_safe feed]) ∧
    (trim ls trimmer = .None →
        cd' = false ∧ ms = if cd then [zFeedMove z_safe feed] else []) := by
  rw [stepSeg_eval z_safe z_cut feed trimmer cd p q ls hls] at hstep
  refine ⟨?_, ?_, ?_⟩
  · intro s htr
    rw [htr] at hstep
    simp only [Except.ok.injEq, Prod.mk.injEq] at hstep
    exact ⟨hstep.2.symm, hstep.1.symm⟩
  · intro s htr
    rw [htr] at hstep
    simp only [Except.ok.injEq, Prod.mk.injEq] at hstep
    exact ⟨hstep.2.symm, hstep.1.symm⟩
  · intro htr
    rw [htr] at hstep
    cases cd
    · rw [if_neg (by simp), Except.ok.injEq, Prod.mk.injEq] at hstep
      refine ⟨hstep.2.symm, ?_⟩
      rw [if_neg (by simp)]
      exact hstep.1.symm
    · rw [if_pos rfl, Except.ok.injEq, Prod.mk.injEq] at hstep
      refine ⟨hstep.2.symm, ?_⟩
      rw [if_pos rfl]
      exact hstep.1.symm

/-- Evaluation of `trim` on (-2,0)→(0,0) against the unit circle: clipped to
(-1,0)→(0,0). -/
theorem trim_eval_clip :
    trim ⟨⟨-2, 0⟩, ⟨0, 0⟩⟩ ⟨⟨0, 0⟩, 1⟩ = .Trimmed ⟨⟨-1, 0⟩, ⟨0, 0⟩⟩ := by
  have hs : Real.sqrt (16 : ℝ) = 4 := by
    rw [show (16 : ℝ) = 4 ^ 2 by norm_num, Real.sqrt_sq (by norm_num : (0 : ℝ) ≤ 4)]
  simp only [trim, psub, Vec2.norm_squared, Vec2.dot, Point2.addScaled]
  norm_num [hs, min_def, max_def]

/-- Evaluation of `trim` on (0,0)→(1/2,0) against the unit circle: entirely
inside, unchanged. -/
theorem trim_eval_inside :
    trim ⟨⟨0, 0⟩, ⟨1/2, 0⟩⟩ ⟨⟨0, 0⟩, 1⟩ = .Unchanged ⟨⟨0, 0⟩, ⟨1/2, 0⟩⟩ := by
  simp only [trim, psub, Vec2.norm_squared, Vec2.dot, Point2.addScaled]
  norm_num [Real.sqrt_one, min_def, max_def]

/-- Witness for C1's corrected theorem on the clipped segment
(-2,0)→(0,0). -/
theorem stepSeg_state_transition_witness :
    LineSegment.new (xy (-2) 0) (xy 0 0) = .ok ⟨⟨-2, 0⟩, ⟨0, 0⟩⟩ ∧
    stepSeg 1 (-1) 100 ⟨⟨0, 0⟩, 1⟩ false (xy (-2) 0) (xy 0 0) =
      .ok (engageMoves (-1) 100 ⟨-1, 0⟩ ++
        [xyFeedMove 0 0 100, zFeedMove 1 100], false) ∧
    trim ⟨⟨-2, 0⟩, ⟨0, 0⟩⟩ ⟨⟨0, 0⟩, 1⟩ = .Trimmed ⟨⟨-1, 0⟩, ⟨0, 0⟩⟩ ∧
    (false = false ∧
      engageMoves (-1) 100 ⟨-1, 0⟩ ++ [xyFeedMove 0 0 100, zFeedMove 1 100] =
        (if false then []
         else engageMoves (-1) 100 (⟨⟨-1, 0⟩, ⟨0, 0⟩⟩ : LineSegment).start) ++
          [xyFeedMove (⟨⟨-1, 0⟩, ⟨0, 0⟩⟩ : LineSegment).«end».x
            (⟨⟨-1, 0⟩, ⟨0, 0⟩⟩ : LineSegment).«end».y 100, zFeedMove 1 100]) := by
  have hls : LineSegment.new (xy (-2) 0) (xy 0 0) = .ok ⟨⟨-2, 0⟩, ⟨0, 0⟩⟩ := rfl
  have hstep : stepSeg 1 (-1) 100 ⟨⟨0, 0⟩, 1⟩ false (xy (-2) 0) (xy 0 0) =
      .ok (engageMoves (-1) 100 ⟨-1, 0⟩ ++
        [xyFeedMove 0 0 100, zFeedMove 1 100], false) := by
    rw [stepSeg_eval 1 (-1) 100 ⟨⟨0, 0⟩, 1⟩ false (xy (-2) 0) (xy 0 0) ⟨⟨-2, 0⟩, ⟨0, 0⟩⟩ hls,
      trim_eval_clip]
    rfl
  exact ⟨hls, hstep, trim_eval_clip,
    (stepSeg_state_transition 1 (-1) 100 ⟨⟨0, 0⟩, 1⟩ false (xy (-2) 0) (xy 0 0)
        ⟨⟨-2, 0⟩, ⟨0, 0⟩⟩ _ false hls hstep).2.1 ⟨⟨-1, 0⟩, ⟨0, 0⟩⟩ trim_eval_clip⟩

/-- C1 counterexample: on the path (-2,0) → (0,0) → (1/2,0) with the unit
trim circle, no segment is Eliminated (the first is Clipped, the second
Unchanged), yet the emitted sequence contains a retract to safe height and a
full re-engage (rapid + plunge) between the two cuts, refuting the claim that
Clipped segments never trigger a retract and stay engaged. -/
theorem trimmed_g1_path_clip_retract_counterexample :
    trim ⟨⟨-2, 0⟩, ⟨0, 0⟩⟩ ⟨⟨0, 0⟩, 1⟩ = .Trimmed ⟨⟨-1, 0⟩, ⟨0, 0⟩⟩ ∧
    trim ⟨⟨0, 0⟩, ⟨1/2, 0⟩⟩ ⟨⟨0, 0⟩, 1⟩ = .Unchanged ⟨⟨0, 0⟩, ⟨1/2, 0⟩⟩ ∧
    trimmed_g1_path 1 (-1) 100 [xy (-2) 0, xy 0 0, xy (1/2) 0] (xyr 0 0 1) =
      .ok [⟨"G0", [⟨"Z", .integral 1⟩]⟩,
           ⟨"G0", [⟨"X", .integral (-1)⟩, ⟨"Y", .integral 0⟩]⟩,
           ⟨"G1", [⟨"Z", .integral (-1)⟩, ⟨"F", .integral 100⟩]⟩,
           ⟨"G1", [⟨"X", .integral 0⟩, ⟨"Y", .integral 0⟩, ⟨"F", .integral 100⟩]⟩,
           ⟨"G1", [⟨"Z", .integral 1⟩, ⟨"F", .integral 100⟩]⟩,
           ⟨"G0", [⟨"X", .integral 0⟩, ⟨"Y", .integral 0⟩]⟩,
           ⟨"G1", [⟨"Z", .integral (-1)⟩, ⟨"F", .integral 100⟩]⟩,
           ⟨"G1", [⟨"X", .fixed4 (1/2)⟩, ⟨"Y", .integral 0⟩, ⟨"F", .integral 100⟩]⟩,
           ⟨"G1", [⟨"Z", .integral 1⟩, ⟨"F", .integral 100⟩]⟩] := by
  refine ⟨trim_eval_clip, trim_eval_inside, ?_⟩
  have hstep1 : stepSeg 1 (-1) 100 ⟨⟨0, 0⟩, 1⟩ false (xy (-2) 0) (xy 0 0) =
      .ok ([⟨"G0", [⟨"X", .integral (-1)⟩, ⟨"Y", .integral 0⟩]⟩,
            ⟨"G1", [⟨"Z", .integral (-1)⟩, ⟨"F", .integral 100⟩]⟩,
            ⟨"G1", [⟨"X", .integral 0⟩, ⟨"Y", .integral 0⟩, ⟨"F", .integral 100⟩]⟩,
            ⟨"G1", [⟨"Z", .integral 1⟩, ⟨"F", .integral 100⟩]⟩], false) := by
    rw [stepSeg_eval 1 (-1) 100 ⟨⟨0, 0⟩, 1⟩ false (xy (-2) 0) (xy 0 0) ⟨⟨-2, 0⟩, ⟨0, 0⟩⟩ rfl,
      trim_eval_clip]
    dsimp only
    simp only [engageMoves, zFeedMove, xyFeedMove, g_val_mone, g_val_zero, g_val_one,
      g_val_hundred, Bool.false_eq_true, if_false, List.nil_append, List.cons_append,
      List.append_nil]
  have hstep2 : stepSeg 1 (-1) 100 ⟨⟨0, 0⟩, 1⟩ false (xy 0 0) (xy (1/2) 0) =
      .ok ([⟨"G0", [⟨"X", .integral 0⟩, ⟨"Y", .integral 0⟩]⟩,
            ⟨"G1", [⟨"Z", .integral (-1)⟩, ⟨"F", .integral 100⟩]⟩,
            ⟨"G1", [⟨"X", .fixed4 (1/2)⟩, ⟨"Y", .integral 0⟩, ⟨"F", .integral 100⟩]⟩], true) := by
    rw [stepSeg_eval 1 (-1) 100 ⟨⟨0, 0⟩, 1⟩ false (xy 0 0) (xy (1/2) 0) ⟨⟨0, 0⟩, ⟨1/2, 0⟩⟩ rfl,
      trim_eval_inside]
    dsimp only
    simp only [engageMoves, zFeedMove, xyFeedMove, g_val_half, g_val_mone, g_val_zero,
      g_val_one, g_val_hundred, Bool.false_eq_true, if_false, List.nil_append,
      List.cons_append, List.append_nil]
  have hfin : walkFrom 1 (-1) 100 ⟨⟨0, 0⟩, 1⟩ true [] =
      .ok [⟨"G1", [⟨"Z", .integral 1⟩, ⟨"F", .integral 100⟩]⟩] := by
    simp [walkFrom, g1_zf, zFeedMove, g_val_one, g_val_hundred, except_bind_ok, except_pure]
  have hm0 : g0 (z 1) = .ok ⟨"G0", [⟨"Z", .integral 1⟩]⟩ := by
    rw [g0_z_pos 1 (by norm_num), g_val_one]
  simp only [trimmed_g1_path, hm0, except_bind_ok,
    show Circle.new (xyr 0 0 1) = (.ok ⟨⟨0, 0⟩, 1⟩ : Except PanicErr Circle) from rfl,
    List.length_cons, List.length_nil, List.zip, List.zipWith, List.tail_cons]
  norm_num
  rw [walkFrom, hstep1, except_bind_ok]
  rw [walkFrom, hstep2, except_bind_ok]
  rw [hfin, except_bind_ok, except_pure]
  simp

/-- C2 counterexample: on an empty waypoint list `trimmed_g1_path` does not
return successfully emitting nothing — `path.len() - 1` underflows and the
walk aborts. -/
theorem trimmed_g1_path_empty_counterexample :
    trimmed_g1_path 1 (-1) 100 [] (xyr 0 0 1) = .error .usizeUnderflow := by
  have hm0 : g0 (z 1) = .ok ⟨"G0", g_val "Z" (some 1)⟩ := g0_z_pos 1 (by norm_num)
  simp [trimmed_g1_path, hm0, except_bind_ok,
    show Circle.new (xyr 0 0 1) = (.ok ⟨⟨0, 0⟩, 1⟩ : Except PanicErr Circle) from rfl]

/-- C2 (corrected): a one-waypoint path is a successful degenerate walk, but
it is not silent — it still emits the initial retract rapid to `z_safe`; and
an empty path is not a no-op at all — it aborts with an unsigned underflow of
`path.len() - 1`. -/
theorem trimmed_g1_path_degenerate (z_safe z_cut feed : ℝ) (p0 : PosAndFeed)
    (circ : PosRadiusAndFeed) (c : Circle)
    (hz : 0 < z_safe) (hc : Circle.new circ = .ok c) :
    trimmed_g1_path z_safe z_cut feed [p0] circ =
      .ok [⟨"G0", g_val "Z" (some z_safe)⟩] ∧
    trimmed_g1_path z_safe z_cut feed [] circ = .error .usizeUnderflow := by
  have hm0 := g0_z_pos z_safe hz
  constructor <;>
    simp [trimmed_g1_path, hm0, hc, except_bind_ok, except_pure, walkFrom,
      List.zip, List.zipWith]

/-- Witness for C2's corrected theorem. -/
theorem trimmed_g1_path_degenerate_witness :
    trimmed_g1_path 1 (-1) 100 [xy 3 4] (xyr 0 0 1) = .ok [⟨"G0", g_val "Z" (some 1)⟩] ∧
    trimmed_g1_path 1 (-1) 100 [] (xyr 0 0 1) = .error .usizeUnderflow :=
  trimmed_g1_path_degenerate 1 (-1) 100 (xy 3 4) (xyr 0 0 1) ⟨⟨0, 0⟩, 1⟩
    (by norm_num) rfl

end GearGen
